import Mathlib

/-! Shallow embedding of `ColormapDialog` (src/silx/gui/plot/ColormapDialog.py).

The dialog keeps its state inside Qt widgets; the embedding records the widget
state that the dialog reads and writes:

* `_comboBoxColormap` — the current index into the palette list (its items are
  the palette names with capitalised words, and `getColormap` lowercases the
  current text again, so reading the item at index `i` gives back exactly
  `_colormapList[i]`);
* `_normButtonLinear` — checked state of the Linear radio button.  It forms an
  exclusive `QButtonGroup` together with the Log button, and Qt ignores
  `setChecked(False)` on the currently checked button of an exclusive group,
  so `setColormap` can check the Linear button but can never uncheck it;
* `_rangeAutoscaleButton` — checked state of the Autoscale checkbox;
* `_startValue`, `_endValue` — `_FloatEdit` line edits.  `setValue(v)` stores
  the text `'%g' % v` and `value()` returns `float(text)`, so the held value
  is the image of `v` under rounding to 6 significant decimal digits
  (`gRound` below);
* `_dataRange`, `_histogramData`, `_minMaxWasEdited` — plain attributes.

Python floats are modelled as rationals.  Emitted `sigColormapChanged`
payloads are collected into a list.  A failing `assert` is surfaced as
`some msg` in the first component of the result, paired with the state at the
moment the assertion fired — as in Python, where the exception propagates but
the object keeps every mutation made before the failing assert.  Signals that
Qt only emits on direct user interaction (`activated`, `buttonClicked`,
`clicked`, `textEdited`, `editingFinished`) are never fired by the setters;
`toggled` fires exactly when the checked state actually changes.  Plot
drawing (`_plotUpdate`, `addCurve`, markers, `removeCurve`) reads the state
but never writes it and is omitted.
-/

set_option maxRecDepth 40000

/-- Sum of two rationals, computed directly on numerators and denominators
(`mkRat` normalises).  The Batteries rational operations are `@[irreducible]`
and hence invisible to `decide`; these explicit versions keep every concrete
state of the model evaluable inside the kernel. -/
def qadd (a b : ℚ) : ℚ := mkRat (a.num * b.den + b.num * a.den) (a.den * b.den)

/-- Difference of two rationals. -/
def qsub (a b : ℚ) : ℚ := mkRat (a.num * b.den - b.num * a.den) (a.den * b.den)

/-- Product of two rationals. -/
def qmul (a b : ℚ) : ℚ := mkRat (a.num * b.num) (a.den * b.den)

/-- Negation of a rational. -/
def qneg (a : ℚ) : ℚ := mkRat (-a.num) a.den

/-- Reciprocal of a rational, with `qinv 0 = 0`. -/
def qinv (a : ℚ) : ℚ :=
  if 0 < a.num then mkRat (Int.ofNat a.den) a.num.toNat
  else if a.num < 0 then mkRat (-(Int.ofNat a.den)) (-a.num).toNat
  else 0

/-- Quotient of two rationals, with `qdiv a 0 = 0`. -/
def qdiv (a b : ℚ) : ℚ := qmul a (qinv b)

/-- Maximum of two rationals. -/
def qmax (a b : ℚ) : ℚ := if a ≤ b then b else a

/-- Powers of ten over the naturals by repeated squaring; the fuel bounds the
recursion depth, and 14 units of fuel cover every exponent below `2^14`. -/
def pow10N : Nat → Nat → Nat
  | 0, _ => 1
  | fuel + 1, n =>
    if n = 0 then 1
    else
      let h := pow10N fuel (n / 2)
      if n % 2 = 0 then h * h else 10 * (h * h)

/-- `10^n` for `n < 16384`. -/
def p10 (n : Nat) : Nat := pow10N 14 n

/-- Binary search for the decimal exponent: under the invariant
`10^lo ≤ n < 10^hi` it returns the `e` with `10^e ≤ n < 10^(e+1)`.  The fuel
argument bounds the number of bisection steps. -/
def digitsSearch : Nat → Nat → Nat → Nat → Nat
  | 0, _, lo, _ => lo
  | fuel + 1, n, lo, hi =>
    if hi ≤ lo + 1 then lo
    else
      let mid := (lo + hi) / 2
      if p10 mid ≤ n then digitsSearch fuel n mid hi
      else digitsSearch fuel n lo mid

/-- Binary search for the least `k` with `q ≤ p * 10^k`, under the invariant
`¬(q ≤ p * 10^lo)` and `q ≤ p * 10^hi`. -/
def qexpSearch : Nat → Nat → Nat → Nat → Nat → Nat
  | 0, _, _, _, hi => hi
  | fuel + 1, p, q, lo, hi =>
    if hi ≤ lo + 1 then hi
    else
      let mid := (lo + hi) / 2
      if q ≤ p * p10 mid then qexpSearch fuel p q lo mid
      else qexpSearch fuel p q mid hi

/-- Floor of `log₁₀ a` for positive rationals with `|log₁₀ a| < 8192` — far
beyond the IEEE-double range (about `10^±308`) that Python float values
inhabit.  For `a ≥ 1` the answer equals the decimal exponent of `⌊a⌋`
(powers of ten are integers, so `10^e ≤ a ↔ 10^e ≤ ⌊a⌋`); for
`0 < a = num/den < 1` it is minus the least `k` with `num * 10^k ≥ den`. -/
def flog10 (a : ℚ) : Int :=
  if 1 ≤ a then (digitsSearch 14 (a.num.toNat / a.den) 0 8192 : Int)
  else -(qexpSearch 14 a.num.toNat a.den 0 8192 : Int)

/-- Powers of ten with integer exponent, as rationals. -/
def pow10 (e : Int) : ℚ :=
  if 0 ≤ e then mkRat (Int.ofNat (p10 e.toNat)) 1 else mkRat 1 (p10 (-e).toNat)

/-- Floor of a rational as an integer. -/
def qfloor (q : ℚ) : Int := q.num.fdiv q.den

/-- Absolute value of a rational. -/
def qabs (q : ℚ) : ℚ := if q < 0 then qneg q else q

/-- Nearest integer, ties to even — the rounding applied by C `printf` float
formatting, hence by Python's `'%g' % v`. -/
def rndHalfEven (x : ℚ) : Int :=
  let f := qfloor x
  let r := qsub x (mkRat f 1)
  if r < mkRat 1 2 then f
  else if mkRat 1 2 < r then f + 1
  else if f % 2 = 0 then f else f + 1

/-- The value round-trip of `_FloatEdit`: `setValue(v)` stores the text
`'%g' % v` and a subsequent `value()` call returns `float(text)`, i.e. `v`
rounded to 6 significant decimal digits.  (`'%g'` switches between fixed and
exponential notation and strips trailing zeros, but the parsed-back value is
the 6-significant-digit rounding either way.) -/
def gRound (v : ℚ) : ℚ :=
  if v = 0 then 0
  else
    let a := qabs v
    let e := flog10 a
    let m := rndHalfEven (qmul a (pow10 (5 - e)))
    let r := qmul (mkRat m 1) (pow10 (e - 5))
    if v < 0 then qneg r else r

/-- The palette identifiers offered by the dialog (`self._colormapList`). -/
def colormapList : List String :=
  ["gray", "reversed gray", "temperature", "red", "green", "blue"]

/-- The colormap description dict built by `getColormap` and carried by the
`sigColormapChanged` signal. -/
structure Colormap where
  name : String
  normalization : String
  autoscale : Bool
  vmin : ℚ
  vmax : ℚ
  colors : Nat
deriving DecidableEq, Repr

/-- Widget-held state of the dialog (see the module docstring above for the
correspondence with the Qt widgets). -/
structure DialogState where
  histogramData : Option (List ℚ × List ℚ)
  minMaxWasEdited : Bool
  colormapIndex : Nat
  normLinear : Bool
  autoscale : Bool
  startValue : ℚ
  endValue : ℚ
  startEnabled : Bool
  endEnabled : Bool
  dataRange : ℚ × ℚ
deriving DecidableEq, Repr

/-- Result of an operation that may raise: the optional assertion message (the
state in the middle component is the one left behind when it fired), the
resulting state, and the list of `sigColormapChanged` payloads emitted. -/
abbrev OpResult := Option String × DialogState × List Colormap

/-- State after `__init__` has built the widgets: combo box at index 0
(`gray`), Linear checked, Autoscale checked, `_FloatEdit(1.)` and
`_FloatEdit(10.)` disabled, data range `(1, 10)`, no histogram.  The
constructor ends with `setColormap(name='gray', normalization='linear',
autoscale=True, vmin=1., vmax=10.)`, which writes exactly these defaults back
(emitting one signal to the not-yet-connected slot list), so this is also the
state of a freshly constructed dialog. -/
def initState : DialogState :=
  { histogramData := none
    minMaxWasEdited := false
    colormapIndex := 0
    normLinear := true
    autoscale := true
    startValue := 1
    endValue := 10
    startEnabled := false
    endEnabled := false
    dataRange := (1, 10) }

/-- `getColormap`: read the description out of the widgets.  The combo-box
text at index `i` lowercases back to `_colormapList[i]`. -/
def getColormap (s : DialogState) : Colormap :=
  { name := colormapList.getD s.colormapIndex ""
    normalization := if s.normLinear then "linear" else "log"
    autoscale := s.autoscale
    vmin := s.startValue
    vmax := s.endValue
    colors := 256 }

/-- `getDataRange`: returns `self._dataRange`. -/
def getDataRange (s : DialogState) : ℚ × ℚ := s.dataRange

/-- `getHistogram`: returns the stored `(counts, bin_edges)` pair (the source
returns fresh `numpy.array(..., copy=True)` copies of both components) or
`None`. -/
def getHistogram (s : DialogState) : Option (List ℚ × List ℚ) := s.histogramData

/-- `_autoscaleToggled(checked)`: enable or disable the min/max edits and, on
becoming checked, push the data-range bounds into them via
`_FloatEdit.setValue` (hence through `'%g'` formatting). -/
def autoscaleToggled (checked : Bool) (s : DialogState) : DialogState :=
  if checked then
    { s with startEnabled := !checked, endEnabled := !checked,
             startValue := gRound s.dataRange.1, endValue := gRound s.dataRange.2 }
  else
    { s with startEnabled := !checked, endEnabled := !checked }

/-- `QCheckBox.setChecked` on the Autoscale checkbox: a no-op when the state
does not change; otherwise the state flips and the `toggled` signal runs
`_autoscaleToggled`.  (The `clicked` signal is only emitted on user
interaction, never by `setChecked`.) -/
def autoscaleSetChecked (b : Bool) (s : DialogState) : DialogState :=
  if b = s.autoscale then s else autoscaleToggled b { s with autoscale := b }

/-- The line `self._normButtonLinear.setChecked(normalization == 'linear')`.
The Linear radio button lives in an exclusive `QButtonGroup` with the Log
button: `setChecked(True)` checks it (unchecking Log), but `setChecked(False)`
on the checked button of an exclusive group is ignored by Qt, and is a no-op
anyway when the button is already unchecked.  Hence this call can only ever
check the Linear button, never uncheck it. -/
def normSetCheckedLinear (nm : String) (s : DialogState) : DialogState :=
  if nm = "linear" then { s with normLinear := true } else s

/-- Applying the optional `autoscale` argument of `setColormap`. -/
def applyOptAutoscale : Option Bool → DialogState → DialogState
  | some b, s => autoscaleSetChecked b s
  | none, s => s

/-- Applying the optional `vmin` argument of `setColormap`
(`self._startValue.setValue(vmin)` stores through `'%g'`). -/
def applyOptVmin : Option ℚ → DialogState → DialogState
  | some v, s => { s with startValue := gRound v }
  | none, s => s

/-- Applying the optional `vmax` argument of `setColormap`. -/
def applyOptVmax : Option ℚ → DialogState → DialogState
  | some v, s => { s with endValue := gRound v }
  | none, s => s

/-- Applying a validated `name` argument: `setCurrentIndex` on the combo box
(the `activated` signal is user-only, so no notification fires here). -/
def applyName (n : String) (s : DialogState) : DialogState :=
  { s with colormapIndex := colormapList.indexOf n }

/-- Tail of `setColormap` after the `name` and `normalization` arguments have
been handled: apply `autoscale`, `vmin`, `vmax` in source order, then run
`_notify` once, emitting the resulting description. -/
def setColormapAfterNorm (s : DialogState) (autoscale : Option Bool)
    (vmin vmax : Option ℚ) : OpResult :=
  let s3 := applyOptVmax vmax (applyOptVmin vmin (applyOptAutoscale autoscale s))
  (none, s3, [getColormap s3])

/-- Tail of `setColormap` after the `name` argument has been handled:
validate and apply `normalization`, then continue. -/
def setColormapAfterName (s : DialogState) (normalization : Option String)
    (autoscale : Option Bool) (vmin vmax : Option ℚ) : OpResult :=
  match normalization with
  | some nm =>
      if nm = "linear" ∨ nm = "log" then
        setColormapAfterNorm (normSetCheckedLinear nm s) autoscale vmin vmax
      else (some "assert normalization in (linear, log)", s, [])
  | none => setColormapAfterNorm s autoscale vmin vmax

/-- `setColormap(name, normalization, autoscale, vmin, vmax, colors)`.  Each
argument is optional; `name` is validated and applied first, then
`normalization`, then the rest; a failing assert leaves the mutations already
made in place (the `colors` argument is accepted but never read, as in the
source).  Exactly one `sigColormapChanged` emission happens, at the end. -/
def setColormap (s : DialogState) (name normalization : Option String)
    (autoscale : Option Bool) (vmin vmax : Option ℚ) (colors : Option Nat) :
    OpResult :=
  match name with
  | some n =>
      if n ∈ colormapList then
        setColormapAfterName (applyName n s) normalization autoscale vmin vmax
      else (some "assert name in colormapList", s, [])
  | none => setColormapAfterName s normalization autoscale vmin vmax

/-- `setDataRange(min_, max_)`: assert `min_ <= max_`, store the pair exactly,
and when Autoscale is checked, push the bounds into the min/max edits
(through `'%g'`) and notify once; otherwise only the plot is redrawn. -/
def setDataRange (s : DialogState) (min_ max_ : ℚ) : OpResult :=
  if min_ ≤ max_ then
    let s1 := { s with dataRange := (min_, max_) }
    if s1.autoscale then
      let s2 := { s1 with startValue := gRound min_, endValue := gRound max_ }
      (none, s2, [getColormap s2])
    else (none, s1, [])
  else (some "assert min_ <= max_", s, [])

/-- Python's `max` over a nonempty sequence (the empty case raises and is
handled by the caller's branching). -/
def pymax (x : ℚ) (xs : List ℚ) : ℚ := xs.foldl qmax x

/-- The bin centers `0.5 * (bin_edges[:-1] + bin_edges[1:])`. -/
def binsCenter (e : List ℚ) : List ℚ :=
  (e.zip e.tail).map fun p => qdiv (qadd p.1 p.2) (mkRat 2 1)

/-- The normalised counts `hist / max(hist)` drawn by the histogram curve.
With numpy true division, an all-zero `hist` gives non-finite entries plus a
runtime warning but no exception; the rational model is likewise total,
returning 0 for the zero divisor. -/
def normHist (h : List ℚ) (m : ℚ) : List ℚ := h.map (qdiv · m)

/-- `setHistogram(hist, bin_edges)`: when either argument is `None`, clear the
stored histogram (and remove the curve).  Otherwise store copies of both
arrays first, build the display curve (where Python's `max` raises on an
empty `hist`, after the histogram was already stored), and finally call
`setDataRange(bin_edges[0], bin_edges[-1])` — which raises `IndexError` on
empty `bin_edges` and asserts `bin_edges[0] <= bin_edges[-1]`. -/
def setHistogram (s : DialogState) (hist bin_edges : Option (List ℚ)) :
    OpResult :=
  match hist, bin_edges with
  | some h, some e =>
      let s1 := { s with histogramData := some (h, e) }
      match h with
      | [] => (some "ValueError: max() arg is an empty sequence", s1, [])
      | h0 :: hrest =>
          let _center := binsCenter e
          let _nh := normHist h (pymax h0 hrest)
          match e with
          | [] => (some "IndexError: index 0 is out of bounds", s1, [])
          | e0 :: erest => setDataRange s1 e0 (erest.getLastD e0)
  | _, _ => (none, { s with histogramData := none }, [])

/-- A user click on the Autoscale checkbox: Qt flips the checked state and
emits `toggled` (connected to `_autoscaleToggled`) followed by `clicked`
(connected to `_notify`), so every click notifies once. -/
def clickAutoscale (s : DialogState) : DialogState × List Colormap :=
  let b := !s.autoscale
  let s1 := autoscaleToggled b { s with autoscale := b }
  (s1, [getColormap s1])

/-- A user keystroke in the Start field that changes its text to one reading
as the value `v`: the line edit emits `textEdited`, whose handler
`_minMaxTextEdited` only sets the dirty flag; nothing is emitted. -/
def typeStart (s : DialogState) (v : ℚ) : DialogState × List Colormap :=
  ({ s with startValue := v, minMaxWasEdited := true }, [])

/-- A user keystroke in the End field that changes its text to one reading as
the value `v`. -/
def typeEnd (s : DialogState) (v : ℚ) : DialogState × List Colormap :=
  ({ s with endValue := v, minMaxWasEdited := true }, [])

/-- The `editingFinished` handler `_minMaxEditingFinished`: when the dirty
flag is set, clear it and notify once; otherwise do nothing. -/
def editingFinishedOp (s : DialogState) : DialogState × List Colormap :=
  if s.minMaxWasEdited then
    let s1 := { s with minMaxWasEdited := false }
    (s1, [getColormap s1])
  else (s, [])

/-! Field lemmas for the small state transformers, in the style of standard
verified-container developments: one equation per projection, used to
assemble the claim theorems. -/

theorem getD_indexOf (n : String) (hn : n ∈ colormapList) :
    colormapList.getD (colormapList.indexOf n) "" = n := by
  simp only [colormapList, List.mem_cons, List.not_mem_nil, or_false] at hn
  rcases hn with rfl | rfl | rfl | rfl | rfl | rfl <;> decide

@[simp] theorem applyName_colormapIndex (n : String) (s : DialogState) :
    (applyName n s).colormapIndex = colormapList.indexOf n := rfl

@[simp] theorem applyName_normLinear (n : String) (s : DialogState) :
    (applyName n s).normLinear = s.normLinear := rfl

@[simp] theorem applyName_autoscale (n : String) (s : DialogState) :
    (applyName n s).autoscale = s.autoscale := rfl

@[simp] theorem applyName_startValue (n : String) (s : DialogState) :
    (applyName n s).startValue = s.startValue := rfl

@[simp] theorem applyName_endValue (n : String) (s : DialogState) :
    (applyName n s).endValue = s.endValue := rfl

@[simp] theorem applyName_dataRange (n : String) (s : DialogState) :
    (applyName n s).dataRange = s.dataRange := rfl

@[simp] theorem normSetCheckedLinear_normLinear (nm : String) (s : DialogState) :
    (normSetCheckedLinear nm s).normLinear =
      (if nm = "linear" then true else s.normLinear) := by
  unfold normSetCheckedLinear; split <;> rfl

@[simp] theorem normSetCheckedLinear_colormapIndex (nm : String) (s : DialogState) :
    (normSetCheckedLinear nm s).colormapIndex = s.colormapIndex := by
  unfold normSetCheckedLinear; split <;> rfl

@[simp] theorem normSetCheckedLinear_autoscale (nm : String) (s : DialogState) :
    (normSetCheckedLinear nm s).autoscale = s.autoscale := by
  unfold normSetCheckedLinear; split <;> rfl

@[simp] theorem normSetCheckedLinear_startValue (nm : String) (s : DialogState) :
    (normSetCheckedLinear nm s).startValue = s.startValue := by
  unfold normSetCheckedLinear; split <;> rfl

@[simp] theorem normSetCheckedLinear_endValue (nm : String) (s : DialogState) :
    (normSetCheckedLinear nm s).endValue = s.endValue := by
  unfold normSetCheckedLinear; split <;> rfl

@[simp] theorem normSetCheckedLinear_dataRange (nm : String) (s : DialogState) :
    (normSetCheckedLinear nm s).dataRange = s.dataRange := by
  unfold normSetCheckedLinear; split <;> rfl

@[simp] theorem applyOptAutoscale_autoscale (aO : Option Bool) (s : DialogState) :
    (applyOptAutoscale aO s).autoscale = aO.getD s.autoscale := by
  rcases aO with _ | b
  · rfl
  · cases b <;> cases hb : s.autoscale <;>
      simp [applyOptAutoscale, autoscaleSetChecked, autoscaleToggled, hb]

@[simp] theorem applyOptAutoscale_startValue (aO : Option Bool) (s : DialogState) :
    (applyOptAutoscale aO s).startValue =
      (if aO = some true ∧ s.autoscale = false then gRound s.dataRange.1
       else s.startValue) := by
  rcases aO with _ | b
  · simp [applyOptAutoscale]
  · cases b <;> cases hb : s.autoscale <;>
      simp [applyOptAutoscale, autoscaleSetChecked, autoscaleToggled, hb]

@[simp] theorem applyOptAutoscale_endValue (aO : Option Bool) (s : DialogState) :
    (applyOptAutoscale aO s).endValue =
      (if aO = some true ∧ s.autoscale = false then gRound s.dataRange.2
       else s.endValue) := by
  rcases aO with _ | b
  · simp [applyOptAutoscale]
  · cases b <;> cases hb : s.autoscale <;>
      simp [applyOptAutoscale, autoscaleSetChecked, autoscaleToggled, hb]

@[simp] theorem applyOptAutoscale_colormapIndex (aO : Option Bool) (s : DialogState) :
    (applyOptAutoscale aO s).colormapIndex = s.colormapIndex := by
  rcases aO with _ | b
  · rfl
  · cases b <;> cases hb : s.autoscale <;>
      simp [applyOptAutoscale, autoscaleSetChecked, autoscaleToggled, hb]

@[simp] theorem applyOptAutoscale_normLinear (aO : Option Bool) (s : DialogState) :
    (applyOptAutoscale aO s).normLinear = s.normLinear := by
  rcases aO with _ | b
  · rfl
  · cases b <;> cases hb : s.autoscale <;>
      simp [applyOptAutoscale, autoscaleSetChecked, autoscaleToggled, hb]

@[simp] theorem applyOptAutoscale_dataRange (aO : Option Bool) (s : DialogState) :
    (applyOptAutoscale aO s).dataRange = s.dataRange := by
  rcases aO with _ | b
  · rfl
  · cases b <;> cases hb : s.autoscale <;>
      simp [applyOptAutoscale, autoscaleSetChecked, autoscaleToggled, hb]

@[simp] theorem applyOptVmin_startValue (vO : Option ℚ) (s : DialogState) :
    (applyOptVmin vO s).startValue = vO.elim s.startValue gRound := by
  rcases vO with _ | v <;> rfl

@[simp] theorem applyOptVmin_colormapIndex (vO : Option ℚ) (s : DialogState) :
    (applyOptVmin vO s).colormapIndex = s.colormapIndex := by
  rcases vO with _ | v <;> rfl

@[simp] theorem applyOptVmin_normLinear (vO : Option ℚ) (s : DialogState) :
    (applyOptVmin vO s).normLinear = s.normLinear := by
  rcases vO with _ | v <;> rfl

@[simp] theorem applyOptVmin_autoscale (vO : Option ℚ) (s : DialogState) :
    (applyOptVmin vO s).autoscale = s.autoscale := by
  rcases vO with _ | v <;> rfl

@[simp] theorem applyOptVmin_endValue (vO : Option ℚ) (s : DialogState) :
    (applyOptVmin vO s).endValue = s.endValue := by
  rcases vO with _ | v <;> rfl

@[simp] theorem applyOptVmin_dataRange (vO : Option ℚ) (s : DialogState) :
    (applyOptVmin vO s).dataRange = s.dataRange := by
  rcases vO with _ | v <;> rfl

@[simp] theorem applyOptVmax_endValue (wO : Option ℚ) (s : DialogState) :
    (applyOptVmax wO s).endValue = wO.elim s.endValue gRound := by
  rcases wO with _ | w <;> rfl

@[simp] theorem applyOptVmax_colormapIndex (wO : Option ℚ) (s : DialogState) :
    (applyOptVmax wO s).colormapIndex = s.colormapIndex := by
  rcases wO with _ | w <;> rfl

@[simp] theorem applyOptVmax_normLinear (wO : Option ℚ) (s : DialogState) :
    (applyOptVmax wO s).normLinear = s.normLinear := by
  rcases wO with _ | w <;> rfl

@[simp] theorem applyOptVmax_autoscale (wO : Option ℚ) (s : DialogState) :
    (applyOptVmax wO s).autoscale = s.autoscale := by
  rcases wO with _ | w <;> rfl

@[simp] theorem applyOptVmax_startValue (wO : Option ℚ) (s : DialogState) :
    (applyOptVmax wO s).startValue = s.startValue := by
  rcases wO with _ | w <;> rfl

@[simp] theorem applyOptVmax_dataRange (wO : Option ℚ) (s : DialogState) :
    (applyOptVmax wO s).dataRange = s.dataRange := by
  rcases wO with _ | w <;> rfl

/-- C5: for every `min_ > max_`, `setDataRange(min_, max_)` fails on its
assertion and leaves the whole state unchanged, emitting no change
notification. -/
theorem C5_setDataRange_invalid (s : DialogState) (min_ max_ : ℚ)
    (hgt : ¬ min_ ≤ max_) :
    setDataRange s min_ max_ = (some "assert min_ <= max_", s, []) := by
  simp [setDataRange, hgt]

theorem C5_setDataRange_invalid_witness :
    setDataRange initState 5 1 = (some "assert min_ <= max_", initState, []) :=
  C5_setDataRange_invalid initState 5 1 (by decide)

/-- C4 (amended): for every `min_ ≤ max_`, `setDataRange(min_, max_)`
succeeds, `getDataRange` afterwards returns `(min_, max_)` exactly, and: when
autoscale is on, the start/end edits receive the bounds through `'%g'`
formatting (`gRound`, the identity on values of at most six significant
digits) and exactly one change notification fires, carrying the resulting
description; when autoscale is off, the edits keep their prior values and no
notification fires. -/
theorem C4_setDataRange (s : DialogState) (min_ max_ : ℚ) (hle : min_ ≤ max_) :
    (setDataRange s min_ max_).1 = none ∧
    getDataRange (setDataRange s min_ max_).2.1 = (min_, max_) ∧
    (s.autoscale = true →
      (setDataRange s min_ max_).2.1.startValue = gRound min_ ∧
      (setDataRange s min_ max_).2.1.endValue = gRound max_ ∧
      (setDataRange s min_ max_).2.2 =
        [getColormap (setDataRange s min_ max_).2.1]) ∧
    (s.autoscale = false →
      (setDataRange s min_ max_).2.1.startValue = s.startValue ∧
      (setDataRange s min_ max_).2.1.endValue = s.endValue ∧
      (setDataRange s min_ max_).2.2 = []) := by
  cases hb : s.autoscale <;>
    simp [setDataRange, getDataRange, hle, hb]

theorem C4_setDataRange_witness :
    (setDataRange initState 2 20).1 = none ∧
    getDataRange (setDataRange initState 2 20).2.1 = (2, 20) ∧
    (initState.autoscale = true →
      (setDataRange initState 2 20).2.1.startValue = gRound 2 ∧
      (setDataRange initState 2 20).2.1.endValue = gRound 20 ∧
      (setDataRange initState 2 20).2.2 =
        [getColormap (setDataRange initState 2 20).2.1]) ∧
    (initState.autoscale = false →
      (setDataRange initState 2 20).2.1.startValue = initState.startValue ∧
      (setDataRange initState 2 20).2.1.endValue = initState.endValue ∧
      (setDataRange initState 2 20).2.2 = []) :=
  C4_setDataRange initState 2 20 (by decide)

/-- C1 (amended): after `setColormap` with all five fields provided and valid,
`getColormap` returns `name` and `autoscale` exactly as set; `vmin`/`vmax`
come back through `'%g'` formatting (`gRound`, the identity on values of at
most six significant decimal digits); `normalization` comes back as requested
except that requesting `log` while the Linear button is checked is ignored by
the exclusive radio group, leaving `linear` — exactly what the module
docstring's own example output records. -/
theorem C1_setColormap_roundtrip (s : DialogState) (n nm : String) (b : Bool)
    (v w : ℚ) (hn : n ∈ colormapList) (hnm : nm = "linear" ∨ nm = "log") :
    (setColormap s (some n) (some nm) (some b) (some v) (some w) none).1 = none ∧
    getColormap
        (setColormap s (some n) (some nm) (some b) (some v) (some w) none).2.1 =
      { name := n
        normalization :=
          if nm = "linear" ∨ s.normLinear = true then "linear" else "log"
        autoscale := b
        vmin := gRound v
        vmax := gRound w
        colors := 256 } := by
  have hname := getD_indexOf n hn
  have hne : ¬ (("log" : String) = "linear") := by decide
  rcases hnm with rfl | rfl <;> cases hl : s.normLinear <;> cases b <;>
    cases hb : s.autoscale <;>
      simp [setColormap, setColormapAfterName, setColormapAfterNorm,
            getColormap, hn, hl, hb, hne, hname]

theorem C1_setColormap_roundtrip_witness :
    (setColormap initState (some "red") (some "log") (some false) (some 2)
        (some 3) none).1 = none ∧
    getColormap
        (setColormap initState (some "red") (some "log") (some false) (some 2)
          (some 3) none).2.1 =
      { name := "red"
        normalization :=
          if ("log" : String) = "linear" ∨ initState.normLinear = true then
            "linear"
          else "log"
        autoscale := false
        vmin := gRound 2
        vmax := gRound 3
        colors := 256 } :=
  C1_setColormap_roundtrip initState "red" "log" false 2 3 (by decide)
    (Or.inr rfl)

/-- C1 fails as stated: from the freshly constructed dialog,
`setColormap(name='red', normalization='log', autoscale=False,
vmin=1.2345678, vmax=2)` succeeds, but `getColormap` then reports
`normalization = 'linear'` (not the `'log'` that was set) and
`vmin = 1.23457` (the `'%g'`-formatted value, not the one that was set). -/
theorem C1_counterexample :
    (setColormap initState (some "red") (some "log") (some false)
        (some (mkRat 12345678 10000000)) (some 2) none).1 = none ∧
    (getColormap
        (setColormap initState (some "red") (some "log") (some false)
          (some (mkRat 12345678 10000000)) (some 2) none).2.1).normalization =
      "linear" ∧
    (getColormap
        (setColormap initState (some "red") (some "log") (some false)
          (some (mkRat 12345678 10000000)) (some 2) none).2.1).vmin =
      mkRat 123457 100000 ∧
    ("linear" : String) ≠ "log" ∧
    mkRat 123457 100000 ≠ mkRat 12345678 10000000 := by
  decide

/-- C2 (amended): an invalid `name` makes `setColormap` fail on its assertion
before any widget is touched, leaving the state unchanged with no
notification; an invalid `normalization` also fails with no notification, but
only after a provided valid `name` has already been applied to the combo box,
so that change persists (partial application). -/
theorem C2_setColormap_invalid (s : DialogState) (n1 n2 nm : String)
    (nmO : Option String) (aO : Option Bool) (vO wO : Option ℚ)
    (hn1 : n1 ∉ colormapList) (hn2 : n2 ∈ colormapList)
    (hnm : ¬ (nm = "linear" ∨ nm = "log")) :
    setColormap s (some n1) nmO aO vO wO none =
      (some "assert name in colormapList", s, []) ∧
    setColormap s (some n2) (some nm) aO vO wO none =
      (some "assert normalization in (linear, log)", applyName n2 s, []) ∧
    setColormap s none (some nm) aO vO wO none =
      (some "assert normalization in (linear, log)", s, []) := by
  refine ⟨?_, ?_, ?_⟩ <;>
    simp [setColormap, setColormapAfterName, hn1, hn2, hnm]

theorem C2_setColormap_invalid_witness :
    setColormap initState (some "magenta") (some "nope") none none none none =
      (some "assert name in colormapList", initState, []) ∧
    setColormap initState (some "red") (some "nope") none none none none =
      (some "assert normalization in (linear, log)", applyName "red" initState,
       []) ∧
    setColormap initState none (some "nope") none none none none =
      (some "assert normalization in (linear, log)", initState, []) :=
  C2_setColormap_invalid initState "magenta" "red" "nope" (some "nope") none
    none none (by decide) (by decide) (by decide)

/-- C2 fails as stated: `setColormap(name='red', normalization='nope')` on the
fresh dialog raises, and no notification fires, but the provided valid name
has already been applied — `getColormap` afterwards reports `name = 'red'`
where it reported `'gray'` before, so the call is not free of partial
application. -/
theorem C2_counterexample :
    (setColormap initState (some "red") (some "nope") none none none
        none).1.isSome = true ∧
    (setColormap initState (some "red") (some "nope") none none none
        none).2.2 = [] ∧
    (getColormap
        (setColormap initState (some "red") (some "nope") none none none
          none).2.1).name = "red" ∧
    (getColormap initState).name = "gray" ∧
    ("red" : String) ≠ "gray" := by
  decide

/-- C3 (amended): a valid `setColormap` call succeeds and emits exactly one
notification, which carries the full resulting description; every unspecified
field keeps its prior value, except that `vmin`/`vmax` — even when
unspecified — are reset to the `'%g'`-formatted data-range bounds whenever
the call turns autoscale from off to on (the `toggled` handler fires before
the `vmin`/`vmax` arguments are considered). -/
theorem C3_setColormap_batch (s : DialogState) (nO nmO : Option String)
    (aO : Option Bool) (vO wO : Option ℚ)
    (hn : ∀ x, nO = some x → x ∈ colormapList)
    (hnm : ∀ x, nmO = some x → x = "linear" ∨ x = "log") :
    (setColormap s nO nmO aO vO wO none).1 = none ∧
    (setColormap s nO nmO aO vO wO none).2.2 =
      [getColormap (setColormap s nO nmO aO vO wO none).2.1] ∧
    (nO = none →
      (setColormap s nO nmO aO vO wO none).2.1.colormapIndex =
        s.colormapIndex) ∧
    (nmO = none →
      (setColormap s nO nmO aO vO wO none).2.1.normLinear = s.normLinear) ∧
    (aO = none →
      (setColormap s nO nmO aO vO wO none).2.1.autoscale = s.autoscale) ∧
    (vO = none →
      (setColormap s nO nmO aO vO wO none).2.1.startValue =
        (if aO = some true ∧ s.autoscale = false then gRound s.dataRange.1
         else s.startValue)) ∧
    (wO = none →
      (setColormap s nO nmO aO vO wO none).2.1.endValue =
        (if aO = some true ∧ s.autoscale = false then gRound s.dataRange.2
         else s.endValue)) := by
  rcases nO with _ | n <;> rcases nmO with _ | nm <;>
    rcases aO with _ | b <;> rcases vO with _ | v <;> rcases wO with _ | w
  all_goals try have hmem : n ∈ colormapList := hn n rfl
  all_goals try have hnm2 : nm = "linear" ∨ nm = "log" := hnm nm rfl
  all_goals clear hn hnm
  all_goals
    simp_all [setColormap, setColormapAfterName, setColormapAfterNorm,
              getColormap]

theorem C3_setColormap_batch_witness :
    (setColormap initState (some "red") none none (some 1) none none).1 =
      none ∧
    (setColormap initState (some "red") none none (some 1) none none).2.2 =
      [getColormap
        (setColormap initState (some "red") none none (some 1) none
          none).2.1] ∧
    ((some "red" : Option String) = none →
      (setColormap initState (some "red") none none (some 1) none
          none).2.1.colormapIndex = initState.colormapIndex) ∧
    ((none : Option String) = none →
      (setColormap initState (some "red") none none (some 1) none
          none).2.1.normLinear = initState.normLinear) ∧
    ((none : Option Bool) = none →
      (setColormap initState (some "red") none none (some 1) none
          none).2.1.autoscale = initState.autoscale) ∧
    ((some (1 : ℚ) : Option ℚ) = none →
      (setColormap initState (some "red") none none (some 1) none
          none).2.1.startValue =
        (if (none : Option Bool) = some true ∧ initState.autoscale = false then
          gRound initState.dataRange.1
         else initState.startValue)) ∧
    ((none : Option ℚ) = none →
      (setColormap initState (some "red") none none (some 1) none
          none).2.1.endValue =
        (if (none : Option Bool) = some true ∧ initState.autoscale = false then
          gRound initState.dataRange.2
         else initState.endValue)) :=
  C3_setColormap_batch initState (some "red") none none (some 1) none
    (fun x hx => by cases hx; decide) (fun x hx => by cases hx)

/-- C3 fails as stated: with autoscale off and `vmin = 3`, calling
`setColormap(autoscale=True)` — `vmin`/`vmax` not provided — still changes
`vmin` to the data-range bound 1, because the autoscale `toggled` handler
resets the edits; an unspecified field does not retain its prior value. -/
theorem C3_counterexample :
    (setColormap
        (setColormap initState none none (some false) (some 3) (some 4)
          none).2.1
        none none (some true) none none none).1 = none ∧
    (setColormap initState none none (some false) (some 3) (some 4)
        none).2.1.startValue = 3 ∧
    (getColormap
        (setColormap
          (setColormap initState none none (some false) (some 3) (some 4)
            none).2.1
          none none (some true) none none none).2.1).vmin = 1 ∧
    (1 : ℚ) ≠ 3 := by decide

/-- C6 (amended): a user click on the Autoscale checkbox always fires exactly
one change notification, in both directions, because the `clicked` signal is
connected to the notifier unconditionally.  Toggling off→on resets
`vmin`/`vmax` to the `'%g'`-formatted data-range bounds and disables the
edits; toggling on→off keeps `vmin`/`vmax` at their last values and enables
the edits. -/
theorem C6_clickAutoscale (s : DialogState) :
    (clickAutoscale s).2 = [getColormap (clickAutoscale s).1] ∧
    (clickAutoscale s).1.autoscale = !s.autoscale ∧
    (s.autoscale = false →
      (clickAutoscale s).1.startValue = gRound s.dataRange.1 ∧
      (clickAutoscale s).1.endValue = gRound s.dataRange.2 ∧
      (clickAutoscale s).1.startEnabled = false ∧
      (clickAutoscale s).1.endEnabled = false) ∧
    (s.autoscale = true →
      (clickAutoscale s).1.startValue = s.startValue ∧
      (clickAutoscale s).1.endValue = s.endValue ∧
      (clickAutoscale s).1.startEnabled = true ∧
      (clickAutoscale s).1.endEnabled = true) := by
  cases hb : s.autoscale <;> simp [clickAutoscale, autoscaleToggled, hb]

theorem C6_clickAutoscale_witness :
    (clickAutoscale initState).2 =
      [getColormap (clickAutoscale initState).1] ∧
    (clickAutoscale initState).1.autoscale = !initState.autoscale ∧
    (initState.autoscale = false →
      (clickAutoscale initState).1.startValue = gRound initState.dataRange.1 ∧
      (clickAutoscale initState).1.endValue = gRound initState.dataRange.2 ∧
      (clickAutoscale initState).1.startEnabled = false ∧
      (clickAutoscale initState).1.endEnabled = false) ∧
    (initState.autoscale = true →
      (clickAutoscale initState).1.startValue = initState.startValue ∧
      (clickAutoscale initState).1.endValue = initState.endValue ∧
      (clickAutoscale initState).1.startEnabled = true ∧
      (clickAutoscale initState).1.endEnabled = true) :=
  C6_clickAutoscale initState

/-- C6 fails as stated: on the fresh dialog (autoscale on), a user click turns
autoscale off and still fires one change notification — the claim says the
on→off direction does not by itself notify. -/
theorem C6_counterexample :
    initState.autoscale = true ∧
    (clickAutoscale initState).1.autoscale = false ∧
    (clickAutoscale initState).2.length = 1 := by decide

/-- C7 (amended): keystrokes (`textEdited`) never notify by themselves;
`editingFinished` notifies exactly once when at least one `textEdited`
arrived since the last commit, and not at all otherwise.  The dirty flag
records only that some edit happened, not that the value changed, so a
session that ends back at the original value still notifies. -/
theorem C7_editCoalescing (s : DialogState) (v : ℚ) :
    (typeStart s v).2 = [] ∧ (typeEnd s v).2 = [] ∧
    (s.minMaxWasEdited = false → editingFinishedOp s = (s, [])) ∧
    editingFinishedOp (typeStart s v).1 =
      ({ s with startValue := v, minMaxWasEdited := false },
       [getColormap { s with startValue := v, minMaxWasEdited := false }]) := by
  refine ⟨rfl, rfl, ?_, ?_⟩
  · intro hflag; simp [editingFinishedOp, hflag]
  · simp [editingFinishedOp, typeStart]

theorem C7_editCoalescing_witness :
    (typeStart initState 12).2 = [] ∧ (typeEnd initState 12).2 = [] ∧
    (initState.minMaxWasEdited = false →
      editingFinishedOp initState = (initState, [])) ∧
    editingFinishedOp (typeStart initState 12).1 =
      ({ initState with startValue := 12, minMaxWasEdited := false },
       [getColormap
         { initState with startValue := 12, minMaxWasEdited := false }]) :=
  C7_editCoalescing initState 12

/-- C7 fails as stated: editing the Start field from 1 to 12 and back to 1
(its original value) and then finishing the edit fires a notification even
though the session ended with no net change to the value. -/
theorem C7_counterexample :
    (typeStart initState 12).2 = [] ∧
    (typeStart (typeStart initState 12).1 1).2 = [] ∧
    (typeStart (typeStart initState 12).1 1).1.startValue =
      initState.startValue ∧
    (editingFinishedOp (typeStart (typeStart initState 12).1 1).1).2.length =
      1 := by
  decide

/-- C10 (amended): `setColormap(autoscale=True, vmin=v, vmax=w)` applies the
explicit bounds after the autoscale-triggered reset, so `getColormap` reports
the `'%g'`-formatting of the provided values (`gRound`, the identity on
values of at most six significant digits) and never the data-range bounds. -/
theorem C10_explicitOverride (s : DialogState) (v w : ℚ) :
    (setColormap s none none (some true) (some v) (some w) none).1 = none ∧
    (getColormap
        (setColormap s none none (some true) (some v) (some w)
          none).2.1).autoscale = true ∧
    (getColormap
        (setColormap s none none (some true) (some v) (some w)
          none).2.1).vmin = gRound v ∧
    (getColormap
        (setColormap s none none (some true) (some v) (some w)
          none).2.1).vmax = gRound w := by
  cases hb : s.autoscale <;>
    simp [setColormap, setColormapAfterName, setColormapAfterNorm, getColormap,
          hb]

/-- C10 fails in its exact-value reading: with autoscale off, `vmin = 3` and
data range `(1, 10)`, calling
`setColormap(autoscale=True, vmin=1.2345678, vmax=20)` reports
`vmin = 1.23457` — neither the provided value (as the claim's round-trip
reading asserts) nor the data-range bound; the ordering claim survives but
only up to `'%g'` formatting. -/
theorem C10_counterexample :
    (setColormap initState none none (some false) (some 3) (some 4)
        none).2.1.autoscale = false ∧
    (setColormap initState none none (some false) (some 3) (some 4)
        none).2.1.dataRange.1 = 1 ∧
    (getColormap
        (setColormap
          (setColormap initState none none (some false) (some 3) (some 4)
            none).2.1
          none none (some true) (some (mkRat 12345678 10000000)) (some 20)
          none).2.1).vmin = mkRat 123457 100000 ∧
    mkRat 123457 100000 ≠ mkRat 12345678 10000000 ∧
    mkRat 123457 100000 ≠ 1 := by decide

theorem foldl_qmax_zero (xs : List ℚ) (hxs : ∀ x ∈ xs, x = 0) :
    xs.foldl qmax 0 = 0 := by
  induction xs with
  | nil => rfl
  | cons y ys ih =>
    have hy : y = 0 := hxs y (by simp)
    have hys : ∀ x ∈ ys, x = 0 := fun x hx => hxs x (by simp [hx])
    simpa [List.foldl, hy, qmax] using ih hys

/-- C8 (amended): with both arguments present, the copies are stored
unconditionally; when the counts are nonempty and the edges run from `e0` up
to a last edge at least `e0`, the call succeeds and the data range becomes
exactly `(first edge, last edge)`; the stored pair reads back equal to the
inputs.  (With empty counts the call raises after storing, leaving the data
range unchanged — see the counterexample.)  When either argument is absent
the histogram is cleared and `getHistogram` returns `None`. -/
theorem C8_setHistogram (s : DialogState) (h : List ℚ) (e0 : ℚ) (er : List ℚ)
    (hh : h ≠ []) (hle : e0 ≤ er.getLastD e0) :
    (setHistogram s (some h) (some (e0 :: er))).1 = none ∧
    getHistogram (setHistogram s (some h) (some (e0 :: er))).2.1 =
      some (h, e0 :: er) ∧
    getDataRange (setHistogram s (some h) (some (e0 :: er))).2.1 =
      (e0, er.getLastD e0) ∧
    (∀ t : DialogState, ∀ l : Option (List ℚ),
      getHistogram (setHistogram t l none).2.1 = none ∧
      getHistogram (setHistogram t none l).2.1 = none) := by
  obtain ⟨h0, hr, rfl⟩ := List.exists_cons_of_ne_nil hh
  rw [List.getLastD_eq_getLast?] at hle
  refine ⟨?_, ?_, ?_, ?_⟩
  · cases hb : s.autoscale <;>
      simp [setHistogram, setDataRange, hle, hb]
  · cases hb : s.autoscale <;>
      simp [setHistogram, setDataRange, getHistogram, hle, hb]
  · cases hb : s.autoscale <;>
      simp [setHistogram, setDataRange, getDataRange, hle, hb]
  · intro t l
    rcases l with _ | l' <;> simp [setHistogram, getHistogram]

theorem C8_setHistogram_witness :
    (setHistogram initState (some [1, 2, 3]) (some ((0 : ℚ) :: [1, 2, 3]))).1 =
      none ∧
    getHistogram
        (setHistogram initState (some [1, 2, 3])
          (some ((0 : ℚ) :: [1, 2, 3]))).2.1 =
      some ([1, 2, 3], (0 : ℚ) :: [1, 2, 3]) ∧
    getDataRange
        (setHistogram initState (some [1, 2, 3])
          (some ((0 : ℚ) :: [1, 2, 3]))).2.1 =
      (0, [(1 : ℚ), 2, 3].getLastD 0) ∧
    (∀ t : DialogState, ∀ l : Option (List ℚ),
      getHistogram (setHistogram t l none).2.1 = none ∧
      getHistogram (setHistogram t none l).2.1 = none) :=
  C8_setHistogram initState [1, 2, 3] 0 [1, 2, 3] (by decide) (by decide)

/-- C8 fails as stated: `setHistogram([], [0, 1])` has both arguments present,
and the defensive copy is indeed stored, but Python's `max` raises on the
empty counts before `setDataRange` runs, so the data range stays at `(1, 10)`
instead of becoming `(0, 1)` as the claim requires. -/
theorem C8_counterexample :
    (setHistogram initState (some []) (some [0, 1])).1.isSome = true ∧
    (setHistogram initState (some []) (some [0, 1])).2.1.histogramData =
      some ([], [0, 1]) ∧
    getDataRange (setHistogram initState (some []) (some [0, 1])).2.1 =
      (1, 10) ∧
    ((1 : ℚ), (10 : ℚ)) ≠ ((0 : ℚ), (1 : ℚ)) := by decide

/-- C9: an all-zero (nonempty) histogram does not raise: `max(hist)` is 0,
numpy's `hist / 0` yields non-finite display values with only a runtime
warning (the rational model likewise stays total, mapping every entry to 0,
a zero-height display), and the call completes, updating the data range to
the bin-edge bounds. -/
theorem C9_setHistogram_allzero (s : DialogState) (h0 : ℚ) (hr : List ℚ)
    (e0 : ℚ) (er : List ℚ)
    (hz : ∀ x ∈ h0 :: hr, x = 0) (hle : e0 ≤ er.getLastD e0) :
    pymax h0 hr = 0 ∧
    (setHistogram s (some (h0 :: hr)) (some (e0 :: er))).1 = none ∧
    getDataRange (setHistogram s (some (h0 :: hr)) (some (e0 :: er))).2.1 =
      (e0, er.getLastD e0) ∧
    (∀ x ∈ normHist (h0 :: hr) (pymax h0 hr), x = 0) := by
  have h00 : h0 = 0 := hz h0 (by simp)
  have hrs : ∀ x ∈ hr, x = 0 := fun x hx => hz x (by simp [hx])
  have hmax : pymax h0 hr = 0 := by
    simpa [pymax, h00] using foldl_qmax_zero hr hrs
  rw [List.getLastD_eq_getLast?] at hle
  refine ⟨hmax, ?_, ?_, ?_⟩
  · cases hb : s.autoscale <;>
      simp [setHistogram, setDataRange, hle, hb]
  · cases hb : s.autoscale <;>
      simp [setHistogram, setDataRange, getDataRange, hle, hb]
  · intro x hx
    simp only [normHist, List.mem_map] at hx
    obtain ⟨y, hy, rfl⟩ := hx
    rw [hz y hy, hmax]
    decide

theorem C9_setHistogram_allzero_witness :
    pymax 0 [0] = 0 ∧
    (setHistogram initState (some ((0 : ℚ) :: [0]))
        (some ((0 : ℚ) :: [1, 2]))).1 = none ∧
    getDataRange
        (setHistogram initState (some ((0 : ℚ) :: [0]))
          (some ((0 : ℚ) :: [1, 2]))).2.1 =
      (0, [(1 : ℚ), 2].getLastD 0) ∧
    (∀ x ∈ normHist ((0 : ℚ) :: [0]) (pymax 0 [0]), x = 0) :=
  C9_setHistogram_allzero initState 0 [0] 0 [1, 2] (by decide) (by decide)

/-- C4 fails in its exact-value reading: on the fresh dialog (autoscale on),
`setDataRange(1.2345678, 2)` stores the data range exactly, but `vmin`
becomes the `'%g'`-formatted `1.23457`, not the min that was set. -/
theorem C4_counterexample :
    (setDataRange initState (mkRat 12345678 10000000) 2).1 = none ∧
    getDataRange (setDataRange initState (mkRat 12345678 10000000) 2).2.1 =
      (mkRat 12345678 10000000, 2) ∧
    initState.autoscale = true ∧
    (setDataRange initState (mkRat 12345678 10000000) 2).2.1.startValue =
      mkRat 123457 100000 ∧
    mkRat 123457 100000 ≠ mkRat 12345678 10000000 := by decide
